import Mathlib

/-!
Verification development for the audio-canvas repository.

Shallow embedding of three components:
 - the Score Sequencer (src/hooks/useScorePlayer.ts),
 - the Real-Time Chord Synthesizer (worklets/harmonic-generator.js,
   class HarmonicGenerator),
 - the Source Session Manager (src/hooks/useAudioEngine.ts,
   the useAudioEngine hook).

Times and sample values are modelled as rationals. The transcendental
primitives of the synthesizer (Math.PI * 2, Math.sin, 2 ** (k / 12)) are
supplied as parameters of the model, so every definition stays executable;
theorems quantify over them (with explicit hypotheses such as
|sin| ≤ 1 where a property depends on them).
-/

set_option autoImplicit false

/-! ## Score Sequencer (src/hooks/useScorePlayer.ts) -/

/-- KALIMBA_LAYOUT note names, in order (src/components/KalimbaKeyboard.tsx).
Only the `note` field is relevant to `findNoteIndex`. -/
def kalimbaNotes : List String :=
  ["D6", "B5", "G5", "E5", "C5", "A4", "F4", "D4", "C4",
   "E4", "G4", "B4", "D5", "F5", "A5", "C6", "E6"]

/-- BASE_UNIT_MS = (60 / 120) * 1000 / 16, about 31.25 ms per duration unit. -/
def BASE_UNIT_MS : ℚ := (60 / 120) * 1000 / 16

/-- A Score entry: code is a note name or "-", duration a string-encoded integer. -/
structure ScoreNote where
  code : String
  duration : String
deriving DecidableEq

/-- Leading- and trailing-whitespace trim over the character list (the
model of String.prototype.trim, kept at the list level so it evaluates). -/
def trimChars (cs : List Char) : List Char :=
  ((cs.dropWhile (fun c => c.isWhitespace)).reverse.dropWhile
    (fun c => c.isWhitespace)).reverse

/-- String.prototype.trim. -/
def jsTrim (s : String) : String := String.mk (trimChars s.data)

/-- JavaScript parseInt(s, 10): skip leading whitespace, optional sign, then
leading decimal digits, ignoring anything after them; NaN (here: none) when
no digit is found. -/
def jsParseInt (s : String) : Option ℤ :=
  let signAndRest : ℤ × List Char :=
    match s.data.dropWhile (fun c => c.isWhitespace) with
    | '-' :: cs => (-1, cs)
    | '+' :: cs => (1, cs)
    | cs => (1, cs)
  let ds := signAndRest.2.takeWhile (fun c => c.isDigit)
  if ds.isEmpty then none
  else some (signAndRest.1 *
    (ds.foldl (fun a c => a * 10 + (c.toNat - Char.toNat '0')) 0 : ℕ))

/-- findNoteIndex from useScorePlayer: "-" is a rest; otherwise the index of
the first KALIMBA_LAYOUT entry with that note name, none when absent. -/
def findNoteIndex (code : String) : Option ℕ :=
  if code = "-" then none
  else kalimbaNotes.findIdx? (fun n => n = code)

/-- The timed event chain that `play` builds through its setTimeout chain:
each list element is the absolute wall-clock time (ms) at which the entry is
handled, paired with `findNoteIndex` of its code (some i triggers note i,
none clears the highlight only); the second component is the absolute time at
which completion is signalled. A failed parse gives a NaN timeout delay,
which setTimeout treats as 0. -/
def scheduleFrom (t : ℚ) : List ScoreNote → List (ℚ × Option ℕ) × ℚ
  | [] => ([], t)
  | n :: rest =>
    let durMs : ℚ :=
      match jsParseInt n.duration with
      | some k => (k : ℚ) * BASE_UNIT_MS
      | none => 0
    let tail := scheduleFrom (t + durMs) rest
    ((t, findNoteIndex n.code) :: tail.1, tail.2)

/-- Schedule of a whole score, starting at t = 0 (playNext(0) runs at once). -/
def scoreSchedule (score : List ScoreNote) : List (ℚ × Option ℕ) × ℚ :=
  scheduleFrom 0 score

/-- The concrete score of the sequencer scenario in the spec. -/
def demoScore : List ScoreNote :=
  [⟨"C4", "16"⟩, ⟨"-", "16"⟩, ⟨"E4", "16"⟩]

/-! ## Real-Time Chord Synthesizer (worklets/harmonic-generator.js) -/

/-- The transcendental primitives the worklet uses, kept abstract so the
model is executable: twoPi stands for Math.PI * 2, sinq for Math.sin, and
pow12 k for 2 ** (k / 12). -/
structure SynthPrims where
  twoPi : ℚ
  sinq : ℚ → ℚ
  pow12 : ℤ → ℚ
  sampleRate : ℕ

/-- BASE_NOTES of the worklet (a 7-note scale of exact decimal constants). -/
def BASE_NOTES : Fin 7 → ℚ :=
  ![261.63, 293.66, 329.63, 349.23, 392, 440, 493.88]

/-- TRIADS of the worklet: major, minor and an added-sixth voicing. -/
def TRIADS : Fin 3 → List ℤ :=
  ![[0, 4, 7], [0, 3, 7], [0, 4, 9]]

/-- One synthesizer voice: frequency and current phase. -/
structure Voice where
  freq : ℚ
  phase : ℚ
deriving DecidableEq

/-- The outcomes of the Math.random() draws consumed by one createChord call:
Math.floor(Math.random() * BASE_NOTES.length), Math.random() > 0.5,
Math.floor(Math.random() * TRIADS.length), and one value in [0, 1) per voice
seeding its phase. -/
structure ChordRand where
  rootIndex : Fin 7
  octaveUp : Bool
  triadIndex : Fin 3
  phaseSeed : ℕ → ℚ

/-- createChord: pick a root, optionally shift up one octave
(2 ** (1 / 12 * 12) = pow12 12), pick a triad pattern, and build one voice
per interval with a random initial phase in [0, twoPi). -/
def createChord (p : SynthPrims) (r : ChordRand) : List Voice :=
  let root := BASE_NOTES r.rootIndex
  let octaveShift := if r.octaveUp then p.pow12 12 else 1
  let baseFreq := root * octaveShift
  let intervals := TRIADS r.triadIndex
  intervals.mapIdx (fun i interval =>
    ⟨baseFreq * p.pow12 interval, r.phaseSeed i * p.twoPi⟩)

/-- The mutable state of the HarmonicGenerator processor. -/
structure GenState where
  isActive : Bool
  samplesSinceChange : ℕ
  chordDurationSamples : ℕ
  voices : List Voice

/-- The constructor: inactive, counter 0, chord window of sampleRate * 4
samples (roughly 4 seconds), an initial chord. -/
def mkGenState (p : SynthPrims) (r : ChordRand) : GenState :=
  ⟨false, 0, p.sampleRate * 4, createChord p r⟩

/-- port.onmessage with data type set-active: set the activation flag; when
deactivating, also reset the elapsed-sample counter to zero. -/
def handleMessage (active : Bool) (st : GenState) : GenState :=
  { st with
    isActive := active
    samplesSinceChange := if active then st.samplesSinceChange else 0 }

/-- Per-sample phase update of one voice: advance by twoPi * freq / sampleRate
and subtract twoPi once when the result reaches twoPi. -/
def advanceVoice (p : SynthPrims) (v : Voice) : Voice :=
  let inc := p.twoPi * v.freq / (p.sampleRate : ℚ)
  let ph := v.phase + inc
  ⟨v.freq, if p.twoPi ≤ ph then ph - p.twoPi else ph⟩

/-- renderSample: 0 when inactive; otherwise increment the counter, replace
the chord when the counter reaches the chord window, advance every voice's
phase, and emit the sum of sines divided by the voice count. The random
draws a regeneration would consume are passed in as r. -/
def renderSample (p : SynthPrims) (r : ChordRand) (st : GenState) : ℚ × GenState :=
  if st.isActive = false then (0, st)
  else
    let c := st.samplesSinceChange + 1
    let next : ℕ × List Voice :=
      if st.chordDurationSamples ≤ c then (0, createChord p r)
      else (c, st.voices)
    let vs2 := next.2.map (advanceVoice p)
    let total := (vs2.map (fun v => p.sinq v.phase)).sum
    (total / (vs2.length : ℚ),
      { st with samplesSinceChange := next.1, voices := vs2 })

/-- Events the render context processes: one output sample, or a control
message on the port. -/
inductive GenAction
  | render (r : ChordRand)
  | message (active : Bool)

/-- The processor state after a list of events (most recent event first),
starting from the freshly constructed state. -/
def genRun (p : SynthPrims) (r0 : ChordRand) : List GenAction → GenState
  | [] => mkGenState p r0
  | GenAction.render r :: rest => (renderSample p r (genRun p r0 rest)).2
  | GenAction.message b :: rest => handleMessage b (genRun p r0 rest)

/-- Number of chord regenerations over n consecutive renderSample calls
(the i-th call consuming draws rs i). -/
def changesN (p : SynthPrims) (rs : ℕ → ChordRand) : ℕ → GenState → ℕ
  | 0, _ => 0
  | Nat.succ n, st =>
    (if st.isActive = true ∧ st.chordDurationSamples ≤ st.samplesSinceChange + 1
     then 1 else 0)
    + changesN p (fun i => rs (i + 1)) n (renderSample p (rs 0) st).2

/-! ## Source Session Manager (src/hooks/useAudioEngine.ts)

State held in useState hooks and refs of the useAudioEngine hook. The Web
Audio objects are represented by the part of their state the hook reads or
writes: the media element by src / currentTime / paused / duration (duration
none meaning a non-finite value), the worklet node by whether it is connected
to the analyser and by the last set-active message posted to it, the buffer
source by its presence, the decoded AudioBuffer by its duration. The engine
clock (AudioContext.currentTime) is passed to each operation as `now`. All
asynchronous steps of the source complete before the next operation runs in
this model; oracle fields on the inputs decide whether the awaited media
readiness and file decode succeed. -/

inductive SourceKind
  | url | file | stream | instrument
deriving DecidableEq

inductive PlaybackState
  | idle | loading | ready | playing | paused | error
deriving DecidableEq

/-- The error kinds thrown by the source (each carries a fixed user-facing
message string in the source). -/
inductive EngineError
  | invalidUrl       -- validateUrl failed
  | mediaLoadFailed  -- the media element fired error instead of canplay
  | invalidFileType  -- file.type does not start with audio/
  | decodeFailed     -- decodeAudioData rejected
deriving DecidableEq

/-- Observable state of the HTMLAudioElement as used by the hook. -/
structure MediaElement where
  src : String
  currentTime : ℚ
  paused : Bool
  duration : Option ℚ
deriving DecidableEq

/-- Observable state of the AudioWorkletNode: connected to the analyser, and
the activation flag as set by the last set-active message posted to its port
(the flag the worklet's renderSample gates on). -/
structure StreamNode where
  connected : Bool
  isActive : Bool
deriving DecidableEq

/-- The whole session: React state (state, activeSource, errorMessage,
volume, currentTime, duration) plus the refs. ctx models whether
audioContextRef.current is non-null. -/
structure SessionState where
  state : PlaybackState
  activeSource : Option SourceKind
  errorMessage : Option EngineError
  volume : ℚ
  currentTime : ℚ
  duration : ℚ
  ctx : Bool
  media : Option MediaElement
  bufferSource : Bool
  decodedBuffer : Option ℚ
  bufferOffset : ℚ
  bufferStartedAt : Option ℚ
  streamNode : Option StreamNode
  streamStartedAt : Option ℚ
  streamOffset : ℚ
deriving DecidableEq

/-- Initial hook state: idle, no source, volume 0.8, empty refs. -/
def initState : SessionState :=
  ⟨PlaybackState.idle, none, none, 0.8, 0, 0,
   false, none, false, none, 0, none, none, none, 0⟩

/-- ASCII lower-casing of a character code (the case-insensitivity of the
url regex only concerns ASCII letters). -/
def lowerCode (c : Char) : ℕ :=
  if 65 ≤ c.toNat ∧ c.toNat ≤ 90 then c.toNat + 32 else c.toNat

/-- Case-insensitive anchored match of a lowercase pattern against the start
of the input. -/
def matchesCI : List Char → List Char → Bool
  | [], _ => true
  | _ :: _, [] => false
  | p :: ps, c :: cs => (lowerCode c = p.toNat) && matchesCI ps cs

/-- validateUrl: the case-insensitive anchored http(s) pattern test on the
trimmed value. -/
def validateUrl (value : String) : Bool :=
  let t := (jsTrim value).data
  matchesCI ("http://".data) t || matchesCI ("https://".data) t

/-- KALIMBA_KEYS frequency column (useAudioEngine.ts). -/
def kalimbaFreqs : List ℚ :=
  [1174.66, 987.77, 783.99, 659.25, 523.25, 440, 349.23, 293.66, 261.63,
   329.63, 392, 493.88, 587.33, 698.46, 880, 1046.5, 1318.51]

/-- getKalimbaFrequency: the optional-chaining lookup
KALIMBA_KEYS index ?.freq ?? null; any index outside the array, including
negative ones, yields null. -/
def getKalimbaFrequency (index : ℤ) : Option ℚ :=
  if index < 0 then none else kalimbaFreqs.get? index.toNat

/-- disconnectBufferSource: drop the buffer-playback instance if present. -/
def disconnectBufferSource (st : SessionState) : SessionState :=
  { st with bufferSource := false }

/-- resetBufferState: zero the logical offset and clear the start instant. -/
def resetBufferState (st : SessionState) : SessionState :=
  { st with bufferOffset := 0, bufferStartedAt := none }

/-- disconnectStreamNode: disconnect the worklet node, post a deactivation
message to it, null the ref, clear the stream start instant and offset. The
second component reports the final state of the node that was removed. -/
def disconnectStreamNode (st : SessionState) : SessionState × Option StreamNode :=
  ({ st with streamNode := none, streamStartedAt := none, streamOffset := 0 },
   st.streamNode.map (fun n => { n with connected := false, isActive := false }))

/-- mediaElementRef.current?.pause() followed by rewinding its currentTime
to 0 (used when switching to the file / stream / instrument kinds). -/
def pauseMediaAndRewind (st : SessionState) : SessionState :=
  match st.media with
  | some m => { st with media := some { m with paused := true, currentTime := 0 } }
  | none => st

/-- Input of the url kind plus the oracles resolving its awaited steps:
loadOk tells whether canplay (true) or error (false) fired, mediaDuration is
audio.duration once loaded (none for a non-finite value). -/
structure UrlInput where
  value : String
  loadOk : Bool
  mediaDuration : Option ℚ
deriving DecidableEq

/-- Input of the file kind: its declared content type, and the oracle for
decodeAudioData (some duration on success, none when decoding rejects). -/
structure FileInput where
  fileType : String
  decoded : Option ℚ
deriving DecidableEq

/-- AudioSourceDescriptor, with the oracle fields attached to the payloads. -/
inductive Descriptor
  | url (u : UrlInput)
  | file (f : FileInput)
  | stream
  | instrument
deriving DecidableEq

/-- Result of a load operation: the new session state, the final state of a
worklet node that was removed from the graph (if any), and the error thrown
(none on success). -/
structure LoadOutcome where
  st : SessionState
  detached : Option StreamNode
  err : Option EngineError
deriving DecidableEq

/-- loadUrlSource: reject a malformed url before touching anything; otherwise
create the context, point the (new or reused) media element at the trimmed
url (the load algorithm rewinds and pauses it), await readiness, and on
success tear down buffer and stream backends and become the url source. -/
def loadUrlSource (u : UrlInput) (st : SessionState) : LoadOutcome :=
  if validateUrl u.value = false then ⟨st, none, some EngineError.invalidUrl⟩
  else
    let s1 := { st with ctx := true }
    let m' : MediaElement :=
      match s1.media with
      | some m =>
        { m with src := jsTrim u.value, currentTime := 0,
                 paused := true, duration := u.mediaDuration }
      | none => ⟨jsTrim u.value, 0, true, u.mediaDuration⟩
    let s2 := { s1 with media := some m' }
    if u.loadOk = false then ⟨s2, none, some EngineError.mediaLoadFailed⟩
    else
      let s3 := { s2 with decodedBuffer := none, bufferSource := false }
      let s4 := disconnectStreamNode s3
      let s5 := resetBufferState s4.1
      ⟨{ s5 with duration := u.mediaDuration.getD 0, currentTime := 0,
                 activeSource := some SourceKind.url,
                 state := PlaybackState.ready },
       s4.2, none⟩

/-- loadFileSource: reject a non-audio content type before touching anything;
otherwise create the context, decode, and on success store the buffer, tear
down buffer-playback and stream backends, pause and rewind the media
element, and become the file source. -/
def loadFileSource (f : FileInput) (st : SessionState) : LoadOutcome :=
  if (("audio/".data).isPrefixOf f.fileType.data) = false then
    ⟨st, none, some EngineError.invalidFileType⟩
  else
    let s1 := { st with ctx := true }
    match f.decoded with
    | none => ⟨s1, none, some EngineError.decodeFailed⟩
    | some d =>
      let s2 := { s1 with decodedBuffer := some d, bufferSource := false }
      let s3 := disconnectStreamNode s2
      let s4 := resetBufferState s3.1
      let s5 := pauseMediaAndRewind s4
      ⟨{ s5 with duration := d, currentTime := 0,
                 activeSource := some SourceKind.file,
                 state := PlaybackState.ready },
       s3.2, none⟩

/-- The stream branch of loadSource: ensure the worklet module, tear down the
buffer backend, pause the media element, replace any previous worklet node by
a fresh one that is connected but deactivated, and become the stream source. -/
def loadStreamSource (st : SessionState) : LoadOutcome :=
  let s1 := { st with ctx := true, bufferSource := false }
  let s2 := pauseMediaAndRewind s1
  let s3 := disconnectStreamNode s2
  ⟨{ s3.1 with streamNode := some ⟨true, false⟩,
               streamOffset := 0, streamStartedAt := none,
               decodedBuffer := none, duration := 0, currentTime := 0,
               activeSource := some SourceKind.stream,
               state := PlaybackState.ready },
   s3.2, none⟩

/-- The instrument branch of loadSource: tear down the other backends and
become the instrument source. -/
def loadInstrumentSource (st : SessionState) : LoadOutcome :=
  let s1 := { st with ctx := true, bufferSource := false }
  let s2 := disconnectStreamNode s1
  let s3 := pauseMediaAndRewind s2.1
  ⟨{ s3 with decodedBuffer := none, bufferOffset := 0, bufferStartedAt := none,
             streamOffset := 0, streamStartedAt := none,
             duration := 0, currentTime := 0,
             activeSource := some SourceKind.instrument,
             state := PlaybackState.ready },
   s2.2, none⟩

/-- loadSource: clear the error message, enter loading, dispatch on the
descriptor kind, and on a thrown error record it and enter the error state
(re-raising to the caller, reported through the err field). -/
def loadSource (d : Descriptor) (st : SessionState) : LoadOutcome :=
  let s0 := { st with errorMessage := none, state := PlaybackState.loading }
  let o :=
    match d with
    | Descriptor.url u => loadUrlSource u s0
    | Descriptor.file f => loadFileSource f s0
    | Descriptor.stream => loadStreamSource s0
    | Descriptor.instrument => loadInstrumentSource s0
  match o.err with
  | some e => ⟨{ o.st with errorMessage := some e, state := PlaybackState.error },
               o.detached, some e⟩
  | none => o

/-- startFilePlayback: no-op without a decoded buffer; otherwise replace the
buffer-playback instance by a new one started at the clamped offset, record
the start instant as now - clampedOffset and the offset itself. -/
def startFilePlayback (now offsetSeconds : ℚ) (st : SessionState) : SessionState :=
  let s1 := { st with ctx := true }
  match s1.decodedBuffer with
  | none => s1
  | some d =>
    let clamped := min d (max 0 offsetSeconds)
    { s1 with bufferSource := true,
              bufferStartedAt := some (now - clamped),
              bufferOffset := clamped }

/-- play: no-op while loading; resume the engine; url resumes the element,
file restarts buffer playback at the stored offset, stream activates the
worklet and records the start instant, instrument only moves to ready. -/
def play (now : ℚ) (st : SessionState) : SessionState :=
  if st.state = PlaybackState.loading then st
  else
    let s := { st with ctx := true }
    match s.activeSource, s.media, s.decodedBuffer, s.streamNode with
    | some SourceKind.url, some m, _, _ =>
      { s with media := some { m with paused := false },
               state := PlaybackState.playing }
    | some SourceKind.file, _, some _, _ =>
      { startFilePlayback now s.bufferOffset s with state := PlaybackState.playing }
    | some SourceKind.stream, _, _, some n =>
      { s with streamNode := some { n with isActive := true },
               streamStartedAt := some now,
               state := PlaybackState.playing }
    | some SourceKind.instrument, _, _, _ => { s with state := PlaybackState.ready }
    | _, _, _, _ => s

/-- pause: url pauses the element; file stops the buffer instance, stores
the clamped elapsed time as the new offset and clears the start instant;
stream deactivates the worklet and accumulates the unclamped elapsed time
into the running offset; instrument moves to ready. -/
def pause (now : ℚ) (st : SessionState) : SessionState :=
  match st.activeSource with
  | some SourceKind.url =>
    match st.media with
    | some m =>
      { st with media := some { m with paused := true },
                state := PlaybackState.paused }
    | none => st
  | some SourceKind.file =>
    if st.bufferSource = true ∧ st.ctx = true then
      let s1 := { st with bufferSource := false }
      let s2 :=
        match s1.bufferStartedAt, s1.decodedBuffer with
        | some started, some d =>
          { s1 with bufferOffset := min d (max 0 (now - started)) }
        | _, _ => s1
      { s2 with bufferStartedAt := none, state := PlaybackState.paused }
    else st
  | some SourceKind.stream =>
    match st.streamNode with
    | some n =>
      if st.ctx = true then
        let s1 := { st with streamNode := some { n with isActive := false } }
        let s2 :=
          match s1.streamStartedAt with
          | some started =>
            { s1 with streamOffset := s1.streamOffset + (now - started) }
          | none => s1
        { s2 with streamStartedAt := none, state := PlaybackState.paused }
      else st
    | none => st
  | some SourceKind.instrument => { st with state := PlaybackState.ready }
  | none => st

/-- stop: every kind returns to ready with elapsed time 0; file and stream
also reset their offset and start instant, url rewinds and pauses the
element, stream deactivates the worklet. -/
def stop (st : SessionState) : SessionState :=
  match st.activeSource with
  | some SourceKind.url =>
    match st.media with
    | some m =>
      { st with media := some { m with paused := true, currentTime := 0 },
                currentTime := 0, state := PlaybackState.ready }
    | none => st
  | some SourceKind.file =>
    { st with bufferSource := false, bufferOffset := 0, bufferStartedAt := none,
              currentTime := 0, state := PlaybackState.ready }
  | some SourceKind.stream =>
    match st.streamNode with
    | some n =>
      { st with streamNode := some { n with isActive := false },
                streamOffset := 0, streamStartedAt := none,
                currentTime := 0, state := PlaybackState.ready }
    | none => st
  | some SourceKind.instrument =>
    { st with currentTime := 0, state := PlaybackState.ready }
  | none => st

/-- seekTo: a silent no-op for the stream and instrument kinds; url clamps
into the finite element duration and resumes when playing; file clamps into
the buffer duration, stores the new offset, and either restarts playback
there (when playing) or recomputes the pending start instant. -/
def seekTo (targetSeconds now : ℚ) (st : SessionState) : SessionState :=
  let safeTarget := max 0 targetSeconds
  match st.activeSource with
  | some SourceKind.stream => st
  | some SourceKind.instrument => st
  | some SourceKind.url =>
    match st.media with
    | some m =>
      match m.duration with
      | some d =>
        let clamped := min d safeTarget
        let pausedAfter := if st.state = PlaybackState.playing then false else m.paused
        { st with media := some { m with currentTime := clamped, paused := pausedAfter },
                  currentTime := clamped }
      | none => st
    | none => st
  | some SourceKind.file =>
    match st.decodedBuffer with
    | some d =>
      let clamped := min d safeTarget
      let s1 := { st with bufferOffset := clamped, currentTime := clamped }
      if st.state = PlaybackState.playing then startFilePlayback now clamped s1
      else if s1.ctx = true then { s1 with bufferStartedAt := some (now - clamped) }
      else s1
    | none => st
  | none => st

/-- setVolume: store the value (the smoothing ramp on the gain node carries
no observable session state). -/
def setVolumeSafely (value : ℚ) (st : SessionState) : SessionState :=
  { st with volume := value }

/-- triggerInstrumentNote: only meaningful for the instrument kind; an index
without a frequency (or a falsy one) is a silent no-op; otherwise a
fire-and-forget oscillator is created (reported by the Bool). -/
def triggerInstrumentNote (noteIndex : ℤ) (st : SessionState) : SessionState × Bool :=
  if st.activeSource ≠ some SourceKind.instrument then (st, false)
  else
    match getKalimbaFrequency noteIndex with
    | none => (st, false)
    | some f =>
      if f = 0 then (st, false)
      else ({ st with ctx := true }, true)

/-- The 200 ms polling interval body: recompute displayed currentTime and
duration from the per-kind formulas. -/
def poll (now : ℚ) (st : SessionState) : SessionState :=
  match st.activeSource with
  | some SourceKind.url =>
    match st.media with
    | some m =>
      { st with currentTime := m.currentTime, duration := m.duration.getD 0 }
    | none => st
  | some SourceKind.file =>
    match st.decodedBuffer with
    | some d =>
      if st.ctx = true then
        let s1 := { st with duration := d }
        match st.bufferStartedAt with
        | some started =>
          if st.state = PlaybackState.playing then
            { s1 with currentTime := min d (max 0 (now - started)) }
          else { s1 with currentTime := st.bufferOffset }
        | none => { s1 with currentTime := st.bufferOffset }
      else st
    | none => st
  | some SourceKind.stream =>
    if st.ctx = true then
      let s1 := { st with duration := 0 }
      match st.streamStartedAt with
      | some started =>
        if st.state = PlaybackState.playing then
          { s1 with currentTime := st.streamOffset + (now - started) }
        else { s1 with currentTime := st.streamOffset }
      | none => { s1 with currentTime := st.streamOffset }
    else st
  | some SourceKind.instrument => { st with duration := 0, currentTime := 0 }
  | none => st

/-- source.onended of a buffer-playback instance: tear the instance down,
reset offset and start instant, and drop from playing back to ready. -/
def bufferEnded (st : SessionState) : SessionState :=
  if st.bufferSource = true then
    { st with bufferSource := false, bufferOffset := 0, bufferStartedAt := none,
              state := if st.state = PlaybackState.playing then PlaybackState.ready
                       else st.state }
  else st

/-- The ended listener of the media element (the element itself is paused at
its end by the platform): back to ready with elapsed time 0. -/
def mediaEnded (st : SessionState) : SessionState :=
  match st.media with
  | some m =>
    { st with media := some { m with paused := true },
              state := PlaybackState.ready, currentTime := 0 }
  | none => st

/-- Everything the control context can do to a session. -/
inductive SessionAction
  | load (d : Descriptor)
  | play (now : ℚ)
  | pause (now : ℚ)
  | stop
  | seek (t now : ℚ)
  | setVol (v : ℚ)
  | trigger (i : ℤ)
  | poll (now : ℚ)
  | bufferEnded
  | mediaEnded

/-- One step of the session under an action. -/
def applyAction (a : SessionAction) (st : SessionState) : SessionState :=
  match a with
  | SessionAction.load d => (loadSource d st).st
  | SessionAction.play now => play now st
  | SessionAction.pause now => pause now st
  | SessionAction.stop => stop st
  | SessionAction.seek t now => seekTo t now st
  | SessionAction.setVol v => setVolumeSafely v st
  | SessionAction.trigger i => (triggerInstrumentNote i st).1
  | SessionAction.poll now => poll now st
  | SessionAction.bufferEnded => bufferEnded st
  | SessionAction.mediaEnded => mediaEnded st

/-- The session state after a list of actions, most recent action first. -/
def sessionRun : List SessionAction → SessionState
  | [] => initState
  | a :: rest => applyAction a (sessionRun rest)

/-- Number of backends currently able to feed the shared output graph: a
connected buffer-playback instance, a connected worklet node, or an unpaused
media element (the MediaElementAudioSourceNode stays attached for the hook's
lifetime, but a paused element feeds no samples). -/
def backendsConnected (st : SessionState) : ℕ :=
  (if st.bufferSource = true then 1 else 0) +
  (if st.streamNode.isSome then 1 else 0) +
  (if (st.media.map MediaElement.paused).getD true = false then 1 else 0)

/-- Media element contents after pointing it at a fresh url (used to state
how loadUrlSource leaves the element). -/
def urlMediaAfter (u : UrlInput) : Option MediaElement → MediaElement := fun om =>
  match om with
  | some m =>
    { m with src := jsTrim u.value, currentTime := 0,
             paused := true, duration := u.mediaDuration }
  | none => ⟨jsTrim u.value, 0, true, u.mediaDuration⟩

/-- Media state after pause-and-rewind, at the Option level. -/
def mediaPausedRewound : Option MediaElement → Option MediaElement :=
  Option.map (fun m => { m with paused := true, currentTime := 0 })

/-- Final state of a worklet node removed from the graph: disconnected, and
deactivated by the posted set-active false message. -/
def deactivatedNode : StreamNode → StreamNode := fun _ => ⟨false, false⟩

/-- Structural invariant of reachable session states: each backend resource
is only held while its kind is the active one, and a paused session has
already released the transient playback resources. -/
structure SessionInv (st : SessionState) : Prop where
  streamNodeSrc : ∀ n, st.streamNode = some n → st.activeSource = some SourceKind.stream
  bufSrc : st.bufferSource = true → st.activeSource = some SourceKind.file
  mediaSrc : ∀ m, st.media = some m → m.paused = false → st.activeSource = some SourceKind.url
  streamStartSrc : ∀ x, st.streamStartedAt = some x → st.activeSource = some SourceKind.stream
  pausedBuf : st.state = PlaybackState.paused → st.bufferSource = false
  pausedStreamStart : st.state = PlaybackState.paused → st.streamStartedAt = none
  pausedMedia : st.state = PlaybackState.paused → ∀ m, st.media = some m → m.paused = true
  pausedNode : st.state = PlaybackState.paused → ∀ n, st.streamNode = some n → n.isActive = false
  pausedNotInstr : st.state = PlaybackState.paused → st.activeSource ≠ some SourceKind.instrument

/-- A well-typed audio file input used in concrete scenarios. -/
def fileDemo : FileInput := ⟨"audio/wav", some 10⟩

/-- Load the synthesizer stream, then press play at engine time 1. -/
def demoStreamActs : List SessionAction :=
  [SessionAction.play 1, SessionAction.load Descriptor.stream]

/-- Load an audio file, play at engine time 1, pause at engine time 2. -/
def pausedDemoActs : List SessionAction :=
  [SessionAction.pause 2, SessionAction.play 1,
   SessionAction.load (Descriptor.file fileDemo)]

/-- Concrete session and synthesizer inputs used by the witnesses below. -/
def fileSessionPlaying : SessionState :=
  ⟨PlaybackState.playing, some SourceKind.file, none, 1, 0, 10, true, none,
   true, some 10, 0, some 1, none, none, 0⟩

/-- A playing stream session with an active worklet node. -/
def streamSessionPlaying : SessionState :=
  ⟨PlaybackState.playing, some SourceKind.stream, none, 1, 3, 0, true, none,
   false, none, 0, none, some ⟨true, true⟩, some 1, 2⟩

/-- A ready file session holding a 10-second decoded buffer. -/
def fileSessionReady : SessionState :=
  ⟨PlaybackState.ready, some SourceKind.file, none, 1, 0, 10, true, none,
   false, some 10, 0, none, none, none, 0⟩

/-- A ready instrument session. -/
def instrumentSession : SessionState :=
  ⟨PlaybackState.ready, some SourceKind.instrument, none, 1, 0, 0, true, none,
   false, none, 0, none, none, none, 0⟩

/-- Concrete synthesizer primitives for witnesses: twoPi stand-in 6, sin
stand-in constantly 0, pow12 stand-in constantly 1, sample rate 2. -/
def synthPrimsDemo : SynthPrims := ⟨6, fun _ => 0, fun _ => 1, 2⟩

/-- Concrete random draws for witnesses. -/
def chordRandDemo : ChordRand := ⟨0, false, 0, fun _ => 0⟩


/-! ## Helper lemmas -/

theorem clamp_idem (d x : ℚ) :
    min d (max 0 (min d (max 0 x))) = min d (max 0 x) := by
  rcases le_total d 0 with h | h <;> rcases le_total 0 x with h2 | h2 <;>
    simp [min_def, max_def] <;> split_ifs <;> linarith

theorem loadUrlSource_success (u : UrlInput) (st : SessionState)
    (hv : validateUrl u.value = true) (hok : u.loadOk = true) :
    loadUrlSource u st =
      ⟨{ st with ctx := true,
                 media := some (urlMediaAfter u st.media),
                 decodedBuffer := none, bufferSource := false,
                 streamNode := none, streamStartedAt := none, streamOffset := 0,
                 bufferOffset := 0, bufferStartedAt := none,
                 duration := u.mediaDuration.getD 0, currentTime := 0,
                 activeSource := some SourceKind.url, state := PlaybackState.ready },
       st.streamNode.map deactivatedNode,
       none⟩ := by
  rcases hm : st.media with _ | m <;>
    (simp [loadUrlSource, hv, hok, hm, disconnectStreamNode, resetBufferState,
           urlMediaAfter, deactivatedNode]
     all_goals rfl)

theorem loadFileSource_success (f : FileInput) (st : SessionState) (d : ℚ)
    (hv : (("audio/".data).isPrefixOf f.fileType.data) = true)
    (hd : f.decoded = some d) :
    loadFileSource f st =
      ⟨{ st with ctx := true, decodedBuffer := some d, bufferSource := false,
                 streamNode := none, streamStartedAt := none, streamOffset := 0,
                 bufferOffset := 0, bufferStartedAt := none,
                 media := mediaPausedRewound st.media,
                 duration := d, currentTime := 0,
                 activeSource := some SourceKind.file, state := PlaybackState.ready },
       st.streamNode.map deactivatedNode,
       none⟩ := by
  rcases hm : st.media with _ | m <;>
    (simp [loadFileSource, hv, hd, hm, disconnectStreamNode, resetBufferState,
           pauseMediaAndRewind, mediaPausedRewound, deactivatedNode]
     all_goals rfl)

theorem loadStreamSource_eq (st : SessionState) :
    loadStreamSource st =
      ⟨{ st with ctx := true, bufferSource := false,
                 media := mediaPausedRewound st.media,
                 streamNode := some ⟨true, false⟩,
                 streamOffset := 0, streamStartedAt := none,
                 decodedBuffer := none, duration := 0, currentTime := 0,
                 activeSource := some SourceKind.stream, state := PlaybackState.ready },
       st.streamNode.map deactivatedNode,
       none⟩ := by
  rcases hm : st.media with _ | m <;>
    (simp [loadStreamSource, hm, disconnectStreamNode, pauseMediaAndRewind,
           mediaPausedRewound, deactivatedNode]
     all_goals rfl)

theorem loadInstrumentSource_eq (st : SessionState) :
    loadInstrumentSource st =
      ⟨{ st with ctx := true, bufferSource := false,
                 media := mediaPausedRewound st.media,
                 streamNode := none, streamOffset := 0, streamStartedAt := none,
                 decodedBuffer := none, bufferOffset := 0, bufferStartedAt := none,
                 duration := 0, currentTime := 0,
                 activeSource := some SourceKind.instrument, state := PlaybackState.ready },
       st.streamNode.map deactivatedNode,
       none⟩ := by
  rcases hm : st.media with _ | m <;>
    (simp [loadInstrumentSource, hm, disconnectStreamNode, pauseMediaAndRewind,
           mediaPausedRewound, deactivatedNode]
     all_goals rfl)

theorem loadSource_url_badUrl (u : UrlInput) (st : SessionState)
    (hv : validateUrl u.value = false) :
    loadSource (Descriptor.url u) st =
      ⟨{ st with errorMessage := some EngineError.invalidUrl,
                 state := PlaybackState.error },
       none, some EngineError.invalidUrl⟩ := by
  simp [loadSource, loadUrlSource, hv]

theorem loadSource_url_loadFail (u : UrlInput) (st : SessionState)
    (hv : validateUrl u.value = true) (hok : u.loadOk = false) :
    loadSource (Descriptor.url u) st =
      ⟨{ st with ctx := true, media := some (urlMediaAfter u st.media),
                 errorMessage := some EngineError.mediaLoadFailed,
                 state := PlaybackState.error },
       none, some EngineError.mediaLoadFailed⟩ := by
  rcases hm : st.media with _ | m <;>
    simp [loadSource, loadUrlSource, hv, hok, hm, urlMediaAfter]

theorem loadSource_url_success (u : UrlInput) (st : SessionState)
    (hv : validateUrl u.value = true) (hok : u.loadOk = true) :
    loadSource (Descriptor.url u) st =
      ⟨{ st with ctx := true,
                 media := some (urlMediaAfter u st.media),
                 errorMessage := none,
                 decodedBuffer := none, bufferSource := false,
                 streamNode := none, streamStartedAt := none, streamOffset := 0,
                 bufferOffset := 0, bufferStartedAt := none,
                 duration := u.mediaDuration.getD 0, currentTime := 0,
                 activeSource := some SourceKind.url, state := PlaybackState.ready },
       st.streamNode.map deactivatedNode,
       none⟩ := by
  have h := loadUrlSource_success u
    { st with errorMessage := none, state := PlaybackState.loading } hv hok
  simp only [loadSource, h]

theorem loadSource_file_badType (f : FileInput) (st : SessionState)
    (hv : (("audio/".data).isPrefixOf f.fileType.data) = false) :
    loadSource (Descriptor.file f) st =
      ⟨{ st with errorMessage := some EngineError.invalidFileType,
                 state := PlaybackState.error },
       none, some EngineError.invalidFileType⟩ := by
  simp [loadSource, loadFileSource, hv]

theorem loadSource_file_decodeFail (f : FileInput) (st : SessionState)
    (hv : (("audio/".data).isPrefixOf f.fileType.data) = true)
    (hd : f.decoded = none) :
    loadSource (Descriptor.file f) st =
      ⟨{ st with ctx := true,
                 errorMessage := some EngineError.decodeFailed,
                 state := PlaybackState.error },
       none, some EngineError.decodeFailed⟩ := by
  simp [loadSource, loadFileSource, hv, hd]

theorem loadSource_file_success (f : FileInput) (st : SessionState) (d : ℚ)
    (hv : (("audio/".data).isPrefixOf f.fileType.data) = true)
    (hd : f.decoded = some d) :
    loadSource (Descriptor.file f) st =
      ⟨{ st with ctx := true, errorMessage := none,
                 decodedBuffer := some d, bufferSource := false,
                 streamNode := none, streamStartedAt := none, streamOffset := 0,
                 bufferOffset := 0, bufferStartedAt := none,
                 media := mediaPausedRewound st.media,
                 duration := d, currentTime := 0,
                 activeSource := some SourceKind.file, state := PlaybackState.ready },
       st.streamNode.map deactivatedNode,
       none⟩ := by
  have h := loadFileSource_success f
    { st with errorMessage := none, state := PlaybackState.loading } d hv hd
  simp only [loadSource, h]

theorem loadSource_stream_eq (st : SessionState) :
    loadSource Descriptor.stream st =
      ⟨{ st with ctx := true, errorMessage := none, bufferSource := false,
                 media := mediaPausedRewound st.media,
                 streamNode := some ⟨true, false⟩,
                 streamOffset := 0, streamStartedAt := none,
                 decodedBuffer := none, duration := 0, currentTime := 0,
                 activeSource := some SourceKind.stream, state := PlaybackState.ready },
       st.streamNode.map deactivatedNode,
       none⟩ := by
  have h := loadStreamSource_eq
    { st with errorMessage := none, state := PlaybackState.loading }
  simp only [loadSource, h]

theorem loadSource_instrument_eq (st : SessionState) :
    loadSource Descriptor.instrument st =
      ⟨{ st with ctx := true, errorMessage := none, bufferSource := false,
                 media := mediaPausedRewound st.media,
                 streamNode := none, streamOffset := 0, streamStartedAt := none,
                 decodedBuffer := none, bufferOffset := 0, bufferStartedAt := none,
                 duration := 0, currentTime := 0,
                 activeSource := some SourceKind.instrument,
                 state := PlaybackState.ready },
       st.streamNode.map deactivatedNode,
       none⟩ := by
  have h := loadInstrumentSource_eq
    { st with errorMessage := none, state := PlaybackState.loading }
  simp only [loadSource, h]

theorem inv_init : SessionInv initState := by
  constructor <;> simp [initState]

theorem inv_load (d : Descriptor) (st : SessionState) (h : SessionInv st) :
    SessionInv (loadSource d st).st := by
  obtain ⟨i1, i2, i3, i4, i5, i6, i7, i8, i9⟩ := h
  rcases d with u | f | _ | _
  · rcases hv : validateUrl u.value
    · rw [loadSource_url_badUrl u st hv]
      constructor <;> simp_all
    · rcases hok : u.loadOk
      · rw [loadSource_url_loadFail u st hv hok]
        constructor <;> simp_all [urlMediaAfter]
        rcases hm : st.media with _ | m <;> simp [hm]
      · rw [loadSource_url_success u st hv hok]
        constructor <;> simp
  · rcases hv : ("audio/".data).isPrefixOf f.fileType.data
    · rw [loadSource_file_badType f st hv]
      constructor <;> simp_all
    · rcases hd : f.decoded with _ | dd
      · rw [loadSource_file_decodeFail f st hv hd]
        constructor <;> simp_all
      · rw [loadSource_file_success f st dd hv hd]
        constructor <;> simp [mediaPausedRewound]
  · rw [loadSource_stream_eq st]
    constructor <;> simp [mediaPausedRewound]
  · rw [loadSource_instrument_eq st]
    constructor <;> simp [mediaPausedRewound]

theorem SessionInv.streamNode_none {st : SessionState} (h : SessionInv st)
    (hne : st.activeSource ≠ some SourceKind.stream) : st.streamNode = none := by
  cases hx : st.streamNode with
  | none => rfl
  | some n => exact absurd (h.streamNodeSrc n hx) hne

theorem SessionInv.streamStartedAt_none {st : SessionState} (h : SessionInv st)
    (hne : st.activeSource ≠ some SourceKind.stream) : st.streamStartedAt = none := by
  cases hx : st.streamStartedAt with
  | none => rfl
  | some x => exact absurd (h.streamStartSrc x hx) hne

theorem SessionInv.bufferSource_false {st : SessionState} (h : SessionInv st)
    (hne : st.activeSource ≠ some SourceKind.file) : st.bufferSource = false := by
  cases hx : st.bufferSource with
  | false => rfl
  | true => exact absurd (h.bufSrc hx) hne

theorem SessionInv.media_paused {st : SessionState} (h : SessionInv st)
    (hne : st.activeSource ≠ some SourceKind.url) :
    ∀ m, st.media = some m → m.paused = true := by
  intro m hm
  cases hx : m.paused with
  | true => rfl
  | false => exact absurd (h.mediaSrc m hm hx) hne


theorem inv_play (now : ℚ) (st : SessionState) (h : SessionInv st) :
    SessionInv (play now st) := by
  by_cases hl : st.state = PlaybackState.loading
  · rw [play, if_pos hl]; exact h
  · rcases ha : st.activeSource with _ | k
    · have hres : play now st = { st with ctx := true } := by
        simp [play, if_neg hl, ha]
      obtain ⟨i1, i2, i3, i4, i5, i6, i7, i8, i9⟩ := h
      rw [hres]; constructor <;> simp_all
    · cases k
      · rcases hm : st.media with _ | m
        · have hres : play now st = { st with ctx := true } := by
            simp [play, if_neg hl, ha, hm]
          obtain ⟨i1, i2, i3, i4, i5, i6, i7, i8, i9⟩ := h
          rw [hres]; constructor <;> simp_all
        · have hres : play now st =
              { st with ctx := true, media := some { m with paused := false },
                        state := PlaybackState.playing } := by
            simp [play, if_neg hl, ha, hm]
          have hsn := h.streamNode_none (by simp [ha])
          have hss := h.streamStartedAt_none (by simp [ha])
          have hbf := h.bufferSource_false (by simp [ha])
          rw [hres]; constructor <;> simp [ha, hsn, hss, hbf]
      · rcases hd : st.decodedBuffer with _ | d
        · have hres : play now st = { st with ctx := true } := by
            simp [play, if_neg hl, ha, hd]
          obtain ⟨i1, i2, i3, i4, i5, i6, i7, i8, i9⟩ := h
          rw [hres]; constructor <;> simp_all
        · have hres : play now st =
              { st with ctx := true, bufferSource := true,
                        bufferStartedAt := some (now - min d (max 0 st.bufferOffset)),
                        bufferOffset := min d (max 0 st.bufferOffset),
                        state := PlaybackState.playing } := by
            simp [play, if_neg hl, ha, hd, startFilePlayback]
          have hsn := h.streamNode_none (by simp [ha])
          have hss := h.streamStartedAt_none (by simp [ha])
          have hmp := h.media_paused (by simp [ha])
          rw [hres]; constructor <;> (try simp [ha, hsn, hss, hmp]) <;> (try exact hmp)
      · rcases hn : st.streamNode with _ | n
        · have hres : play now st = { st with ctx := true } := by
            simp [play, if_neg hl, ha, hn]
          obtain ⟨i1, i2, i3, i4, i5, i6, i7, i8, i9⟩ := h
          rw [hres]; constructor <;> simp_all
        · have hres : play now st =
              { st with ctx := true, streamNode := some ⟨n.connected, true⟩,
                        streamStartedAt := some now,
                        state := PlaybackState.playing } := by
            simp [play, if_neg hl, ha, hn]
          have hbf := h.bufferSource_false (by simp [ha])
          have hmp := h.media_paused (by simp [ha])
          rw [hres]; constructor <;> (try simp [ha, hbf, hmp]) <;> (try exact hmp)
      · have hres : play now st =
            { st with ctx := true, state := PlaybackState.ready } := by
          simp [play, if_neg hl, ha]
        have hsn := h.streamNode_none (by simp [ha])
        have hss := h.streamStartedAt_none (by simp [ha])
        have hbf := h.bufferSource_false (by simp [ha])
        have hmp := h.media_paused (by simp [ha])
        rw [hres]; constructor <;> (try simp [ha, hsn, hss, hbf, hmp]) <;> (try exact hmp)

theorem inv_pause (now : ℚ) (st : SessionState) (h : SessionInv st) :
    SessionInv (pause now st) := by
  rcases ha : st.activeSource with _ | k
  · have hres : pause now st = st := by simp [pause, ha]
    rw [hres]; exact h
  · cases k
    · rcases hm : st.media with _ | m
      · have hres : pause now st = st := by simp [pause, ha, hm]
        rw [hres]; exact h
      · have hres : pause now st =
            { st with media := some { m with paused := true },
                      state := PlaybackState.paused } := by
          simp [pause, ha, hm]
        have hsn := h.streamNode_none (by simp [ha])
        have hss := h.streamStartedAt_none (by simp [ha])
        have hbf := h.bufferSource_false (by simp [ha])
        rw [hres]; constructor <;> simp [ha, hsn, hss, hbf]
    · by_cases hb : st.bufferSource = true ∧ st.ctx = true
      · have hsn := h.streamNode_none (by simp [ha])
        have hss := h.streamStartedAt_none (by simp [ha])
        have hmp := h.media_paused (by simp [ha])
        rcases hs : st.bufferStartedAt with _ | s
        · have hres : pause now st =
              { st with bufferSource := false, bufferStartedAt := none,
                        state := PlaybackState.paused } := by
            simp [pause, ha, hb, hs]
          rw [hres]; constructor <;> (try simp [ha, hsn, hss, hmp]) <;> (try exact hmp)
        · rcases hd : st.decodedBuffer with _ | d
          · have hres : pause now st =
                { st with bufferSource := false, bufferStartedAt := none,
                          state := PlaybackState.paused } := by
              simp [pause, ha, hb, hs, hd]
            rw [hres]; constructor <;> (try simp [ha, hsn, hss, hmp]) <;> (try exact hmp)
          · have hres : pause now st =
                { st with bufferSource := false,
                          bufferOffset := min d (max 0 (now - s)),
                          bufferStartedAt := none,
                          state := PlaybackState.paused } := by
              simp [pause, ha, hb, hs, hd]
            rw [hres]; constructor <;> (try simp [ha, hsn, hss, hmp]) <;> (try exact hmp)
      · have hres : pause now st = st := by simp [pause, ha, hb]
        rw [hres]; exact h
    · rcases hn : st.streamNode with _ | n
      · have hres : pause now st = st := by simp [pause, ha, hn]
        rw [hres]; exact h
      · by_cases hc : st.ctx = true
        · have hbf := h.bufferSource_false (by simp [ha])
          have hmp := h.media_paused (by simp [ha])
          rcases hs : st.streamStartedAt with _ | s
          · have hres : pause now st =
                { st with streamNode := some ⟨n.connected, false⟩,
                          streamStartedAt := none,
                          state := PlaybackState.paused } := by
              simp [pause, ha, hn, hc, hs]
            rw [hres]; constructor <;> (try simp [ha, hbf, hmp]) <;> (try exact hmp)
          · have hres : pause now st =
                { st with streamNode := some ⟨n.connected, false⟩,
                          streamOffset := st.streamOffset + (now - s),
                          streamStartedAt := none,
                          state := PlaybackState.paused } := by
              simp [pause, ha, hn, hc, hs]
            rw [hres]; constructor <;> (try simp [ha, hbf, hmp]) <;> (try exact hmp)
        · have hres : pause now st = st := by simp [pause, ha, hn, hc]
          rw [hres]; exact h
    · have hres : pause now st = { st with state := PlaybackState.ready } := by
        simp [pause, ha]
      have hsn := h.streamNode_none (by simp [ha])
      have hss := h.streamStartedAt_none (by simp [ha])
      have hbf := h.bufferSource_false (by simp [ha])
      have hmp := h.media_paused (by simp [ha])
      rw [hres]; constructor <;> (try simp [ha, hsn, hss, hbf, hmp]) <;> (try exact hmp)

theorem inv_stop (st : SessionState) (h : SessionInv st) :
    SessionInv (stop st) := by
  rcases ha : st.activeSource with _ | k
  · have hres : stop st = st := by simp [stop, ha]
    rw [hres]; exact h
  · cases k
    · rcases hm : st.media with _ | m
      · have hres : stop st = st := by simp [stop, ha, hm]
        rw [hres]; exact h
      · have hres : stop st =
            { st with media := some { m with paused := true, currentTime := 0 },
                      currentTime := 0, state := PlaybackState.ready } := by
          simp [stop, ha, hm]
        have hsn := h.streamNode_none (by simp [ha])
        have hss := h.streamStartedAt_none (by simp [ha])
        have hbf := h.bufferSource_false (by simp [ha])
        rw [hres]; constructor <;> simp [ha, hsn, hss, hbf]
    · have hres : stop st =
          { st with bufferSource := false, bufferOffset := 0,
                    bufferStartedAt := none, currentTime := 0,
                    state := PlaybackState.ready } := by
        simp [stop, ha]
      have hsn := h.streamNode_none (by simp [ha])
      have hss := h.streamStartedAt_none (by simp [ha])
      have hmp := h.media_paused (by simp [ha])
      rw [hres]; constructor <;> (try simp [ha, hsn, hss, hmp]) <;> (try exact hmp)
    · rcases hn : st.streamNode with _ | n
      · have hres : stop st = st := by simp [stop, ha, hn]
        rw [hres]; exact h
      · have hres : stop st =
            { st with streamNode := some ⟨n.connected, false⟩,
                      streamOffset := 0, streamStartedAt := none,
                      currentTime := 0, state := PlaybackState.ready } := by
          simp [stop, ha, hn]
        have hbf := h.bufferSource_false (by simp [ha])
        have hmp := h.media_paused (by simp [ha])
        rw [hres]; constructor <;> (try simp [ha, hbf, hmp]) <;> (try exact hmp)
    · have hres : stop st =
          { st with currentTime := 0, state := PlaybackState.ready } := by
        simp [stop, ha]
      have hsn := h.streamNode_none (by simp [ha])
      have hss := h.streamStartedAt_none (by simp [ha])
      have hbf := h.bufferSource_false (by simp [ha])
      have hmp := h.media_paused (by simp [ha])
      rw [hres]; constructor <;> (try simp [ha, hsn, hss, hbf, hmp]) <;> (try exact hmp)

theorem inv_seek (t now : ℚ) (st : SessionState) (h : SessionInv st) :
    SessionInv (seekTo t now st) := by
  rcases ha : st.activeSource with _ | k
  · have hres : seekTo t now st = st := by simp [seekTo, ha]
    rw [hres]; exact h
  · cases k
    · rcases hm : st.media with _ | m
      · have hres : seekTo t now st = st := by simp [seekTo, ha, hm]
        rw [hres]; exact h
      · rcases hd : m.duration with _ | d
        · have hres : seekTo t now st = st := by simp [seekTo, ha, hm, hd]
          rw [hres]; exact h
        · have hsn := h.streamNode_none (by simp [ha])
          have hss := h.streamStartedAt_none (by simp [ha])
          have hbf := h.bufferSource_false (by simp [ha])
          obtain ⟨i1, i2, i3, i4, i5, i6, i7, i8, i9⟩ := h
          by_cases hp : st.state = PlaybackState.playing
          · have hres : seekTo t now st =
                { st with media := some { m with currentTime := min d (max 0 t),
                                                 paused := false },
                          currentTime := min d (max 0 t) } := by
              simp [seekTo, ha, hm, hd, hp]
            rw [hres]; constructor <;> simp [ha, hsn, hss, hbf, hp]
          · have hres : seekTo t now st =
                { st with media := some { m with currentTime := min d (max 0 t),
                                                 paused := m.paused },
                          currentTime := min d (max 0 t) } := by
              simp [seekTo, ha, hm, hd, hp]
            rw [hres]; constructor <;> simp_all
    · rcases hd : st.decodedBuffer with _ | d
      · have hres : seekTo t now st = st := by simp [seekTo, ha, hd]
        rw [hres]; exact h
      · have hsn := h.streamNode_none (by simp [ha])
        have hss := h.streamStartedAt_none (by simp [ha])
        have hmp := h.media_paused (by simp [ha])
        obtain ⟨i1, i2, i3, i4, i5, i6, i7, i8, i9⟩ := h
        by_cases hp : st.state = PlaybackState.playing
        · have hres : seekTo t now st =
              { st with ctx := true, bufferSource := true,
                        currentTime := min d (max 0 t),
                        bufferOffset := min d (max 0 (min d (max 0 t))),
                        bufferStartedAt :=
                          some (now - min d (max 0 (min d (max 0 t)))) } := by
            simp [seekTo, ha, hd, hp, startFilePlayback]
          rw [hres]; constructor <;>
            (try simp [ha, hsn, hss, hmp, hp]) <;> (try exact hmp)
        · by_cases hc : st.ctx = true
          · have hres : seekTo t now st =
                { st with bufferOffset := min d (max 0 t),
                          currentTime := min d (max 0 t),
                          bufferStartedAt := some (now - min d (max 0 t)) } := by
              simp [seekTo, ha, hd, hp, hc]
            rw [hres]; constructor <;> simp_all
          · have hres : seekTo t now st =
                { st with bufferOffset := min d (max 0 t),
                          currentTime := min d (max 0 t) } := by
              simp [seekTo, ha, hd, hp, hc]
            rw [hres]; constructor <;> simp_all
    · have hres : seekTo t now st = st := by simp [seekTo, ha]
      rw [hres]; exact h
    · have hres : seekTo t now st = st := by simp [seekTo, ha]
      rw [hres]; exact h

theorem inv_setVol (v : ℚ) (st : SessionState) (h : SessionInv st) :
    SessionInv (setVolumeSafely v st) := by
  obtain ⟨i1, i2, i3, i4, i5, i6, i7, i8, i9⟩ := h
  constructor <;> simp_all [setVolumeSafely]

theorem inv_trigger (i : ℤ) (st : SessionState) (h : SessionInv st) :
    SessionInv (triggerInstrumentNote i st).1 := by
  by_cases ha : st.activeSource = some SourceKind.instrument
  · rcases hf : getKalimbaFrequency i with _ | f
    · have hres : (triggerInstrumentNote i st).1 = st := by
        simp [triggerInstrumentNote, ha, hf]
      rw [hres]; exact h
    · by_cases hz : f = 0
      · have hres : (triggerInstrumentNote i st).1 = st := by
          simp [triggerInstrumentNote, ha, hf, hz]
        rw [hres]; exact h
      · have hres : (triggerInstrumentNote i st).1 = { st with ctx := true } := by
          simp [triggerInstrumentNote, ha, hf, hz]
        obtain ⟨i1, i2, i3, i4, i5, i6, i7, i8, i9⟩ := h
        rw [hres]; constructor <;> simp_all
  · have hres : (triggerInstrumentNote i st).1 = st := by
      simp [triggerInstrumentNote, ha]
    rw [hres]; exact h

theorem poll_frame (now : ℚ) (st : SessionState) :
    (poll now st).state = st.state ∧
    (poll now st).activeSource = st.activeSource ∧
    (poll now st).media = st.media ∧
    (poll now st).bufferSource = st.bufferSource ∧
    (poll now st).streamNode = st.streamNode ∧
    (poll now st).streamStartedAt = st.streamStartedAt := by
  rcases ha : st.activeSource with _ | k
  · simp [poll, ha]
  · cases k
    · rcases hm : st.media with _ | m <;> simp [poll, ha, hm]
    · rcases hd : st.decodedBuffer with _ | d
      · simp [poll, ha, hd]
      · by_cases hc : st.ctx = true
        · rcases hs : st.bufferStartedAt with _ | s <;>
            by_cases hp : st.state = PlaybackState.playing <;>
              simp [poll, ha, hd, hc, hs, hp]
        · simp [poll, ha, hd, hc]
    · by_cases hc : st.ctx = true
      · rcases hs : st.streamStartedAt with _ | s <;>
          by_cases hp : st.state = PlaybackState.playing <;>
            simp [poll, ha, hc, hs, hp]
      · simp [poll, ha, hc]
    · simp [poll, ha]

theorem inv_poll (now : ℚ) (st : SessionState) (h : SessionInv st) :
    SessionInv (poll now st) := by
  obtain ⟨f1, f2, f3, f4, f5, f6⟩ := poll_frame now st
  obtain ⟨i1, i2, i3, i4, i5, i6, i7, i8, i9⟩ := h
  constructor <;> simp_all

theorem inv_bufferEnded (st : SessionState) (h : SessionInv st) :
    SessionInv (bufferEnded st) := by
  by_cases hb : st.bufferSource = true
  · have hnp : ¬ st.state = PlaybackState.paused := by
      intro hp
      rw [h.pausedBuf hp] at hb
      exact Bool.false_ne_true hb
    obtain ⟨i1, i2, i3, i4, i5, i6, i7, i8, i9⟩ := h
    by_cases hp : st.state = PlaybackState.playing
    · have hres : bufferEnded st =
          { st with bufferSource := false, bufferOffset := 0,
                    bufferStartedAt := none, state := PlaybackState.ready } := by
        simp [bufferEnded, hb, hp]
      rw [hres]; constructor <;> simp_all
    · have hres : bufferEnded st =
          { st with bufferSource := false, bufferOffset := 0,
                    bufferStartedAt := none } := by
        simp [bufferEnded, hb, hp]
      rw [hres]; constructor <;> simp_all
  · have hres : bufferEnded st = st := by simp [bufferEnded, hb]
    rw [hres]; exact h

theorem inv_mediaEnded (st : SessionState) (h : SessionInv st) :
    SessionInv (mediaEnded st) := by
  obtain ⟨i1, i2, i3, i4, i5, i6, i7, i8, i9⟩ := h
  rcases hm : st.media with _ | m
  · have hres : mediaEnded st = st := by simp [mediaEnded, hm]
    rw [hres]; exact ⟨i1, i2, i3, i4, i5, i6, i7, i8, i9⟩
  · have hres : mediaEnded st =
        { st with media := some { m with paused := true },
                  state := PlaybackState.ready, currentTime := 0 } := by
      simp [mediaEnded, hm]
    rw [hres]; constructor <;> simp_all

theorem inv_run (acts : List SessionAction) : SessionInv (sessionRun acts) := by
  induction acts with
  | nil => exact inv_init
  | cons a rest ih =>
    cases a with
    | load d => exact inv_load d _ ih
    | play now => exact inv_play now _ ih
    | pause now => exact inv_pause now _ ih
    | stop => exact inv_stop _ ih
    | seek t now => exact inv_seek t now _ ih
    | setVol v => exact inv_setVol v _ ih
    | trigger i => exact inv_trigger i _ ih
    | poll now => exact inv_poll now _ ih
    | bufferEnded => exact inv_bufferEnded _ ih
    | mediaEnded => exact inv_mediaEnded _ ih

theorem backends_le_one_of_inv (st : SessionState) (h : SessionInv st) :
    backendsConnected st ≤ 1 := by
  rcases ha : st.activeSource with _ | k
  · have hsn := h.streamNode_none (by simp [ha])
    have hbf := h.bufferSource_false (by simp [ha])
    have hmp := h.media_paused (by simp [ha])
    have hm3 : ((st.media.map MediaElement.paused).getD true) = true := by
      cases hm : st.media with
      | none => rfl
      | some m => simp [hmp m hm]
    simp [backendsConnected, hsn, hbf, hm3]
  · cases k
    · have hsn := h.streamNode_none (by simp [ha])
      have hbf := h.bufferSource_false (by simp [ha])
      simp [backendsConnected, hsn, hbf]
      split <;> simp
    · have hsn := h.streamNode_none (by simp [ha])
      have hmp := h.media_paused (by simp [ha])
      have hm3 : ((st.media.map MediaElement.paused).getD true) = true := by
        cases hm : st.media with
        | none => rfl
        | some m => simp [hmp m hm]
      simp [backendsConnected, hsn, hm3]
      split <;> simp
    · have hbf := h.bufferSource_false (by simp [ha])
      have hmp := h.media_paused (by simp [ha])
      have hm3 : ((st.media.map MediaElement.paused).getD true) = true := by
        cases hm : st.media with
        | none => rfl
        | some m => simp [hmp m hm]
      simp [backendsConnected, hbf, hm3]
      split <;> simp
    · have hsn := h.streamNode_none (by simp [ha])
      have hbf := h.bufferSource_false (by simp [ha])
      have hmp := h.media_paused (by simp [ha])
      have hm3 : ((st.media.map MediaElement.paused).getD true) = true := by
        cases hm : st.media with
        | none => rfl
        | some m => simp [hmp m hm]
      simp [backendsConnected, hsn, hbf, hm3]

theorem stop_stop (st : SessionState) : stop (stop st) = stop st := by
  rcases ha : st.activeSource with _ | k
  · simp [stop, ha]
  · cases k
    · rcases hm : st.media with _ | m <;> simp [stop, ha, hm]
    · simp [stop, ha]
    · rcases hn : st.streamNode with _ | n <;> simp [stop, ha, hn]
    · simp [stop, ha]

theorem pause_paused (now : ℚ) (st : SessionState) (h : SessionInv st)
    (hp : st.state = PlaybackState.paused) : pause now st = st := by
  rcases ha : st.activeSource with _ | k
  · simp [pause, ha]
  · cases k
    · rcases hm : st.media with _ | m
      · simp [pause, ha, hm]
      · have hmp : m.paused = true := h.pausedMedia hp m hm
        have hm' : ({ m with paused := true } : MediaElement) = m := by
          cases m; simp_all
        have : pause now st =
            { st with media := some m, state := PlaybackState.paused } := by
          simp [pause, ha, hm, hm']
        rw [this, ← hm, ← hp]
    · have hbf := h.pausedBuf hp
      simp [pause, ha, hbf]
    · rcases hn : st.streamNode with _ | n
      · simp [pause, ha, hn]
      · have hna : n.isActive = false := h.pausedNode hp n hn
        have hn' : (⟨n.connected, false⟩ : StreamNode) = n := by
          cases n; simp_all
        have hss := h.pausedStreamStart hp
        by_cases hc : st.ctx = true
        · have : pause now st =
              { st with streamNode := some n, streamStartedAt := none,
                        state := PlaybackState.paused } := by
            simp [pause, ha, hn, hc, hss, hn']
          rw [this, ← hn, ← hss, ← hp]
        · simp [pause, ha, hn, hc]
    · exact absurd ha (h.pausedNotInstr hp)

theorem createChord_length (p : SynthPrims) (r : ChordRand) :
    (createChord p r).length = 3 := by
  rcases r with ⟨ri, ou, ti, ps⟩
  fin_cases ti <;> simp [createChord, TRIADS]

theorem renderSample_inactive (p : SynthPrims) (r : ChordRand) (st : GenState)
    (h : st.isActive = false) : renderSample p r st = (0, st) := by
  simp [renderSample, h]

theorem renderSample_threshold (p : SynthPrims) (r : ChordRand) (st : GenState)
    (h : st.isActive = true)
    (hth : st.chordDurationSamples ≤ st.samplesSinceChange + 1) :
    (renderSample p r st).2 =
      { st with samplesSinceChange := 0,
                voices := (createChord p r).map (advanceVoice p) } := by
  simp [renderSample, h, hth]

theorem renderSample_advance (p : SynthPrims) (r : ChordRand) (st : GenState)
    (h : st.isActive = true)
    (hth : ¬ st.chordDurationSamples ≤ st.samplesSinceChange + 1) :
    (renderSample p r st).2 =
      { st with samplesSinceChange := st.samplesSinceChange + 1,
                voices := st.voices.map (advanceVoice p) } := by
  simp [renderSample, h, hth]

theorem renderSample_fst (p : SynthPrims) (r : ChordRand) (st : GenState)
    (h : st.isActive = true) :
    (renderSample p r st).1 =
      ((renderSample p r st).2.voices.map (fun v => p.sinq v.phase)).sum /
        ((renderSample p r st).2.voices.length : ℚ) := by
  by_cases hth : st.chordDurationSamples ≤ st.samplesSinceChange + 1 <;>
    simp [renderSample, h, hth]

theorem renderSample_voices_length (p : SynthPrims) (r : ChordRand) (st : GenState)
    (h3 : st.voices.length = 3) :
    (renderSample p r st).2.voices.length = 3 := by
  rcases hb : st.isActive with _ | _
  · rw [renderSample_inactive p r st hb]; exact h3
  · by_cases hth : st.chordDurationSamples ≤ st.samplesSinceChange + 1
    · rw [renderSample_threshold p r st hb hth]
      simp [createChord_length]
    · rw [renderSample_advance p r st hb hth]
      simp [h3]

theorem renderSample_keeps_active (p : SynthPrims) (r : ChordRand) (st : GenState) :
    (renderSample p r st).2.isActive = st.isActive := by
  rcases hb : st.isActive with _ | _
  · rw [renderSample_inactive p r st hb]; exact hb
  · by_cases hth : st.chordDurationSamples ≤ st.samplesSinceChange + 1
    · rw [renderSample_threshold p r st hb hth]; exact hb
    · rw [renderSample_advance p r st hb hth]; exact hb

theorem renderSample_keeps_cd (p : SynthPrims) (r : ChordRand) (st : GenState) :
    (renderSample p r st).2.chordDurationSamples = st.chordDurationSamples := by
  rcases hb : st.isActive with _ | _
  · rw [renderSample_inactive p r st hb]
  · by_cases hth : st.chordDurationSamples ≤ st.samplesSinceChange + 1
    · rw [renderSample_threshold p r st hb hth]
    · rw [renderSample_advance p r st hb hth]

theorem renderSample_counter_lt (p : SynthPrims) (r : ChordRand) (st : GenState)
    (hcd : 0 < st.chordDurationSamples)
    (hlt : st.samplesSinceChange < st.chordDurationSamples) :
    (renderSample p r st).2.samplesSinceChange <
      (renderSample p r st).2.chordDurationSamples := by
  rw [renderSample_keeps_cd]
  rcases hb : st.isActive with _ | _
  · rw [renderSample_inactive p r st hb]; exact hlt
  · by_cases hth : st.chordDurationSamples ≤ st.samplesSinceChange + 1
    · rw [renderSample_threshold p r st hb hth]; exact hcd
    · rw [renderSample_advance p r st hb hth]
      simp only []
      omega

theorem genRun_inv (p : SynthPrims) (r0 : ChordRand) (hsr : 1 ≤ p.sampleRate)
    (acts : List GenAction) :
    (genRun p r0 acts).voices.length = 3 ∧
    (genRun p r0 acts).chordDurationSamples = p.sampleRate * 4 ∧
    (genRun p r0 acts).samplesSinceChange <
      (genRun p r0 acts).chordDurationSamples := by
  induction acts with
  | nil =>
    refine ⟨createChord_length p r0, rfl, ?_⟩
    simp [genRun, mkGenState]
    omega
  | cons a rest ih =>
    obtain ⟨ih1, ih2, ih3⟩ := ih
    cases a with
    | render r =>
      refine ⟨renderSample_voices_length p r _ ih1, ?_, ?_⟩
      · rw [genRun, renderSample_keeps_cd, ih2]
      · rw [genRun]
        exact renderSample_counter_lt p r _ (by omega) ih3
    | message b =>
      cases b <;>
        exact ⟨by simpa [genRun, handleMessage] using ih1,
               by simpa [genRun, handleMessage] using ih2,
               by simp [genRun, handleMessage]; omega⟩

theorem abs_sum_sines_le (p : SynthPrims) (hsin : ∀ x, |p.sinq x| ≤ 1)
    (vs : List Voice) :
    |(vs.map (fun v => p.sinq v.phase)).sum| ≤ (vs.length : ℚ) := by
  induction vs with
  | nil => simp
  | cons v rest ih =>
    simp only [List.map_cons, List.sum_cons, List.length_cons]
    calc |p.sinq v.phase + (rest.map (fun v => p.sinq v.phase)).sum|
        ≤ |p.sinq v.phase| + |(rest.map (fun v => p.sinq v.phase)).sum| := abs_add _ _
      _ ≤ 1 + (rest.length : ℚ) := add_le_add (hsin v.phase) ih
      _ = ((rest.length + 1 : ℕ) : ℚ) := by push_cast; ring

theorem renderSample_output_bound (p : SynthPrims) (r : ChordRand) (st : GenState)
    (hsin : ∀ x, |p.sinq x| ≤ 1) (h3 : st.voices.length = 3) :
    |(renderSample p r st).1| ≤ 1 := by
  rcases hb : st.isActive with _ | _
  · rw [renderSample_inactive p r st hb]; norm_num
  · rw [renderSample_fst p r st hb]
    have hlen := renderSample_voices_length p r st h3
    rw [hlen]
    have hsum := abs_sum_sines_le p hsin (renderSample p r st).2.voices
    rw [hlen] at hsum
    have habs : |((3:ℕ):ℚ)| = 3 := by norm_num
    rw [abs_div, habs, div_le_one (by norm_num : (0:ℚ) < 3)]
    calc |(List.map (fun v => p.sinq v.phase) (renderSample p r st).2.voices).sum|
        ≤ ((3:ℕ):ℚ) := hsum
      _ = 3 := by norm_num

theorem changesN_formula (p : SynthPrims) (n : ℕ) :
    ∀ (rs : ℕ → ChordRand) (st : GenState), st.isActive = true →
      st.samplesSinceChange < st.chordDurationSamples →
      changesN p rs n st = (st.samplesSinceChange + n) / st.chordDurationSamples := by
  induction n with
  | zero =>
    intro rs st ha hlt
    simp [changesN, Nat.div_eq_of_lt hlt]
  | succ n ih =>
    intro rs st ha hlt
    have hN : 0 < st.chordDurationSamples := by omega
    by_cases hth : st.chordDurationSamples ≤ st.samplesSinceChange + 1
    · rw [changesN, if_pos ⟨ha, hth⟩]
      rw [renderSample_threshold p (rs 0) st ha hth]
      rw [ih (fun i => rs (i + 1)) _ (by simpa using ha) (by simpa using hN)]
      simp only []
      have heq : st.samplesSinceChange + (n + 1) = n + st.chordDurationSamples := by
        omega
      rw [heq, Nat.add_div_right n hN, Nat.zero_add]
      omega
    · rw [changesN, if_neg (by tauto)]
      rw [renderSample_advance p (rs 0) st ha hth]
      rw [ih (fun i => rs (i + 1)) _ (by simpa using ha) (by simp only []; omega)]
      simp only []
      have heq : st.samplesSinceChange + 1 + n = st.samplesSinceChange + (n + 1) := by
        omega
      rw [heq, Nat.zero_add]

theorem changesN_window_le_one (p : SynthPrims) (rs : ℕ → ChordRand)
    (st : GenState) (n : ℕ) (ha : st.isActive = true)
    (hlt : st.samplesSinceChange < st.chordDurationSamples)
    (hn : n ≤ st.chordDurationSamples) :
    changesN p rs n st ≤ 1 := by
  rw [changesN_formula p n rs st ha hlt]
  have hN : 0 < st.chordDurationSamples := by omega
  have h2 : st.samplesSinceChange + n < 2 * st.chordDurationSamples := by omega
  have := (Nat.div_lt_iff_lt_mul hN).2 (by omega :
    st.samplesSinceChange + n < 2 * st.chordDurationSamples)
  omega

theorem changesN_window_eq_one (p : SynthPrims) (rs : ℕ → ChordRand)
    (st : GenState) (ha : st.isActive = true)
    (hz : st.samplesSinceChange = 0) (hN : 0 < st.chordDurationSamples) :
    changesN p rs st.chordDurationSamples st = 1 := by
  rw [changesN_formula p _ rs st ha (by omega)]
  rw [hz, Nat.zero_add, Nat.div_self hN]

theorem advanceVoice_spec (p : SynthPrims) (v : Voice) (h2pi : 0 < p.twoPi)
    (hph0 : 0 ≤ v.phase) (hph : v.phase < p.twoPi)
    (hinc0 : 0 ≤ p.twoPi * v.freq / (p.sampleRate : ℚ))
    (hinc : p.twoPi * v.freq / (p.sampleRate : ℚ) < p.twoPi) :
    (advanceVoice p v).freq = v.freq ∧
    ((advanceVoice p v).phase = v.phase + p.twoPi * v.freq / (p.sampleRate : ℚ) ∨
     (advanceVoice p v).phase =
       v.phase + p.twoPi * v.freq / (p.sampleRate : ℚ) - p.twoPi) ∧
    0 ≤ (advanceVoice p v).phase ∧ (advanceVoice p v).phase < p.twoPi := by
  simp only [advanceVoice]
  split_ifs with h
  · exact ⟨trivial, Or.inr rfl, by linarith, by linarith⟩
  · exact ⟨trivial, Or.inl rfl, by linarith, by linarith⟩

/-! ## Claim theorems -/





theorem demoScore_schedule :
    scoreSchedule demoScore = ([(0, some 8), (500, none), (1000, some 9)], 1500) := by
  have h16 : jsParseInt ("16") = some 16 := by decide
  have hC4 : findNoteIndex ("C4") = some 8 := by decide
  have hd : findNoteIndex ("-") = none := by decide
  have hE4 : findNoteIndex ("E4") = some 9 := by decide
  simp only [scoreSchedule, demoScore, scheduleFrom, h16, hC4, hd, hE4, BASE_UNIT_MS]
  norm_num

/-- C1: in every reachable session state at most one source backend feeds
the output graph, and a successful loadSource of the file kind leaves the
session without a stream node and without a buffer-playback instance; the
worklet node removed from a preceding stream session is disconnected and
deactivated, so it renders no further samples. -/
theorem c1_backend_exclusivity (acts : List SessionAction) (f : FileInput) (d : ℚ)
    (hf : (("audio/".data).isPrefixOf f.fileType.data) = true)
    (hd : f.decoded = some d) :
    backendsConnected (sessionRun acts) ≤ 1 ∧
    (loadSource (Descriptor.file f) (sessionRun acts)).st.streamNode = none ∧
    (loadSource (Descriptor.file f) (sessionRun acts)).st.bufferSource = false ∧
    (loadSource (Descriptor.file f) (sessionRun acts)).err = none ∧
    ∀ n, (sessionRun acts).streamNode = some n →
      (loadSource (Descriptor.file f) (sessionRun acts)).detached =
        some { connected := false, isActive := false } := by
  have hload := loadSource_file_success f (sessionRun acts) d hf hd
  refine ⟨backends_le_one_of_inv _ (inv_run acts), ?_, ?_, ?_, ?_⟩
  · simp [hload]
  · simp [hload]
  · simp [hload]
  · intro n hn
    simp [hload, hn, deactivatedNode]

theorem c1_backend_exclusivity_witness :
    ((("audio/".data).isPrefixOf fileDemo.fileType.data) = true ∧
     fileDemo.decoded = some 10 ∧
     (sessionRun demoStreamActs).streamNode = some ⟨true, true⟩) ∧
    (backendsConnected (sessionRun demoStreamActs) ≤ 1 ∧
     (loadSource (Descriptor.file fileDemo) (sessionRun demoStreamActs)).st.streamNode = none ∧
     (loadSource (Descriptor.file fileDemo) (sessionRun demoStreamActs)).st.bufferSource = false ∧
     (loadSource (Descriptor.file fileDemo) (sessionRun demoStreamActs)).err = none ∧
     ∀ n, (sessionRun demoStreamActs).streamNode = some n →
       (loadSource (Descriptor.file fileDemo) (sessionRun demoStreamActs)).detached =
         some { connected := false, isActive := false }) :=
  ⟨⟨by decide, rfl, by decide⟩,
   c1_backend_exclusivity demoStreamActs fileDemo 10 (by decide) rfl⟩

/-- C2 counterexample: for the demo score the sequencer completion is
signalled at 1500 ms, not at about 93.75 ms, and the trigger instants are 0,
500 and 1000 ms, not 0, 31.25 and 62.5 ms: each entry has duration "16",
i.e. 16 base units of 31.25 ms = 500 ms, not one base unit. -/
theorem c2_sequencer_timing_counterexample :
    (scoreSchedule demoScore).2 ≠ 375 / 4 ∧
    (scoreSchedule demoScore).1.map Prod.fst ≠ [0, 125 / 4, 125 / 2] ∧
    (scoreSchedule demoScore).1.map Prod.fst = [0, 500, 1000] := by
  rw [demoScore_schedule]
  norm_num

/-- C2 amended: for the demo score the sequencer triggers key 8 (C4) at
t = 0 ms, emits no trigger at t = 500 ms (the rest), triggers key 9 (E4) at
t = 1000 ms, and signals completion at t = 1500 ms; each entry's duration of
16 units is converted via the 31.25 ms base unit to 500 ms. -/
theorem c2_sequencer_timing :
    BASE_UNIT_MS = 125 / 4 ∧ (16 : ℚ) * BASE_UNIT_MS = 500 ∧
    scoreSchedule demoScore =
      ([(0, some 8), (500, none), (1000, some 9)], 1500) := by
  refine ⟨?_, ?_, demoScore_schedule⟩ <;> norm_num [BASE_UNIT_MS]

/-- C3 counterexample: an invalid-url loadSource does change the session
state field (idle becomes error), so the observable state is not entirely
unaffected. -/
theorem c3_invalid_input_counterexample :
    (loadSource (Descriptor.url ⟨"ftp://host/a.mp3", true, none⟩) initState).st.state ≠
      initState.state := by
  decide

/-- C3 amended: an InvalidInput descriptor (url failing the http(s) pattern,
or a file whose content type is not audio) is rejected before any backend is
touched: activeSourceKind, currentTime, duration, volume and every backend
ref are unchanged; the state however transitions to error and errorMessage
records the validation error. -/
theorem c3_invalid_input_rejected (st : SessionState) (u : UrlInput) (f : FileInput) :
    (validateUrl u.value = false →
      loadSource (Descriptor.url u) st =
        ⟨{ st with errorMessage := some EngineError.invalidUrl,
                   state := PlaybackState.error },
         none, some EngineError.invalidUrl⟩) ∧
    ((("audio/".data).isPrefixOf f.fileType.data) = false →
      loadSource (Descriptor.file f) st =
        ⟨{ st with errorMessage := some EngineError.invalidFileType,
                   state := PlaybackState.error },
         none, some EngineError.invalidFileType⟩) :=
  ⟨fun h => loadSource_url_badUrl u st h, fun h => loadSource_file_badType f st h⟩

theorem c3_invalid_input_rejected_witness :
    (validateUrl ("ftp://host/a.mp3") = false ∧
     (("audio/".data).isPrefixOf ("text/plain").data) = false) ∧
    (loadSource (Descriptor.url ⟨"ftp://host/a.mp3", true, none⟩) initState =
       ⟨{ initState with errorMessage := some EngineError.invalidUrl,
                         state := PlaybackState.error },
        none, some EngineError.invalidUrl⟩ ∧
     loadSource (Descriptor.file ⟨"text/plain", some 3⟩) initState =
       ⟨{ initState with errorMessage := some EngineError.invalidFileType,
                         state := PlaybackState.error },
        none, some EngineError.invalidFileType⟩) :=
  ⟨⟨by decide, by decide⟩,
   ⟨(c3_invalid_input_rejected initState ⟨"ftp://host/a.mp3", true, none⟩
       ⟨"text/plain", some 3⟩).1 (by decide),
    (c3_invalid_input_rejected initState ⟨"ftp://host/a.mp3", true, none⟩
       ⟨"text/plain", some 3⟩).2 (by decide)⟩⟩

/-- C4: one synthesizer step: when inactive the sample is 0 and the state
unchanged; when active the counter increments, resets together with a fresh
3-voice chord when it reaches the chord window, the emitted sample is the
mean of sin over the 3 current voices (whose phases were advanced by
twoPi * freq / sampleRate and wrapped into the [0, twoPi) interval), and a
deactivation message resets the counter to zero. -/
theorem c4_render_sample (p : SynthPrims) (r : ChordRand) (st : GenState)
    (h3 : st.voices.length = 3) :
    (st.isActive = false → renderSample p r st = (0, st)) ∧
    (st.isActive = true →
      (st.chordDurationSamples ≤ st.samplesSinceChange + 1 →
        (renderSample p r st).2.samplesSinceChange = 0 ∧
        (renderSample p r st).2.voices = (createChord p r).map (advanceVoice p) ∧
        (renderSample p r st).2.voices.length = 3) ∧
      (¬ st.chordDurationSamples ≤ st.samplesSinceChange + 1 →
        (renderSample p r st).2.samplesSinceChange = st.samplesSinceChange + 1 ∧
        (renderSample p r st).2.voices = st.voices.map (advanceVoice p)) ∧
      (renderSample p r st).1 =
        ((renderSample p r st).2.voices.map (fun v => p.sinq v.phase)).sum / 3) ∧
    (∀ v : Voice, 0 < p.twoPi → 0 ≤ v.phase → v.phase < p.twoPi →
      0 ≤ p.twoPi * v.freq / (p.sampleRate : ℚ) →
      p.twoPi * v.freq / (p.sampleRate : ℚ) < p.twoPi →
      ((advanceVoice p v).phase = v.phase + p.twoPi * v.freq / (p.sampleRate : ℚ) ∨
       (advanceVoice p v).phase =
         v.phase + p.twoPi * v.freq / (p.sampleRate : ℚ) - p.twoPi) ∧
      0 ≤ (advanceVoice p v).phase ∧ (advanceVoice p v).phase < p.twoPi) ∧
    ((handleMessage false st).samplesSinceChange = 0 ∧
     (handleMessage false st).isActive = false) := by
  refine ⟨fun hb => renderSample_inactive p r st hb, fun hb => ⟨?_, ?_, ?_⟩,
          fun v h1 h2 h3v h4 h5 => (advanceVoice_spec p v h1 h2 h3v h4 h5).2,
          by simp [handleMessage], by simp [handleMessage]⟩
  · intro hth
    rw [renderSample_threshold p r st hb hth]
    simp [createChord_length]
  · intro hth
    rw [renderSample_advance p r st hb hth]
    simp
  · rw [renderSample_fst p r st hb, renderSample_voices_length p r st h3]
    norm_num


theorem c4_render_sample_witness :
    (mkGenState synthPrimsDemo chordRandDemo).voices.length = 3 ∧
    (((mkGenState synthPrimsDemo chordRandDemo).isActive = false →
       renderSample synthPrimsDemo chordRandDemo (mkGenState synthPrimsDemo chordRandDemo) =
         (0, mkGenState synthPrimsDemo chordRandDemo)) ∧
     ((mkGenState synthPrimsDemo chordRandDemo).isActive = true →
       ((mkGenState synthPrimsDemo chordRandDemo).chordDurationSamples ≤
          (mkGenState synthPrimsDemo chordRandDemo).samplesSinceChange + 1 →
         (renderSample synthPrimsDemo chordRandDemo
            (mkGenState synthPrimsDemo chordRandDemo)).2.samplesSinceChange = 0 ∧
         (renderSample synthPrimsDemo chordRandDemo
            (mkGenState synthPrimsDemo chordRandDemo)).2.voices =
           (createChord synthPrimsDemo chordRandDemo).map (advanceVoice synthPrimsDemo) ∧
         (renderSample synthPrimsDemo chordRandDemo
            (mkGenState synthPrimsDemo chordRandDemo)).2.voices.length = 3) ∧
       (¬ (mkGenState synthPrimsDemo chordRandDemo).chordDurationSamples ≤
          (mkGenState synthPrimsDemo chordRandDemo).samplesSinceChange + 1 →
         (renderSample synthPrimsDemo chordRandDemo
            (mkGenState synthPrimsDemo chordRandDemo)).2.samplesSinceChange =
           (mkGenState synthPrimsDemo chordRandDemo).samplesSinceChange + 1 ∧
         (renderSample synthPrimsDemo chordRandDemo
            (mkGenState synthPrimsDemo chordRandDemo)).2.voices =
           (mkGenState synthPrimsDemo chordRandDemo).voices.map (advanceVoice synthPrimsDemo)) ∧
       (renderSample synthPrimsDemo chordRandDemo
          (mkGenState synthPrimsDemo chordRandDemo)).1 =
         ((renderSample synthPrimsDemo chordRandDemo
             (mkGenState synthPrimsDemo chordRandDemo)).2.voices.map
            (fun v => synthPrimsDemo.sinq v.phase)).sum / 3) ∧
     (∀ v : Voice, 0 < synthPrimsDemo.twoPi → 0 ≤ v.phase →
       v.phase < synthPrimsDemo.twoPi →
       0 ≤ synthPrimsDemo.twoPi * v.freq / (synthPrimsDemo.sampleRate : ℚ) →
       synthPrimsDemo.twoPi * v.freq / (synthPrimsDemo.sampleRate : ℚ) <
         synthPrimsDemo.twoPi →
       ((advanceVoice synthPrimsDemo v).phase =
          v.phase + synthPrimsDemo.twoPi * v.freq / (synthPrimsDemo.sampleRate : ℚ) ∨
        (advanceVoice synthPrimsDemo v).phase =
          v.phase + synthPrimsDemo.twoPi * v.freq / (synthPrimsDemo.sampleRate : ℚ) -
            synthPrimsDemo.twoPi) ∧
       0 ≤ (advanceVoice synthPrimsDemo v).phase ∧
       (advanceVoice synthPrimsDemo v).phase < synthPrimsDemo.twoPi) ∧
     ((handleMessage false (mkGenState synthPrimsDemo chordRandDemo)).samplesSinceChange = 0 ∧
      (handleMessage false (mkGenState synthPrimsDemo chordRandDemo)).isActive = false)) :=
  ⟨by simp [mkGenState, createChord_length],
   c4_render_sample synthPrimsDemo chordRandDemo (mkGenState synthPrimsDemo chordRandDemo)
     (by simp [mkGenState, createChord_length])⟩

/-- C7: in every reachable synthesizer state the chord is exactly 3 voices;
every rendered pre-gain sample has magnitude at most 1 when sin does; and in
any window of at most one chord duration of consecutive active samples the
chord is replaced at most once, exactly once over a full window started at a
fresh chord. -/
theorem c7_synth_invariants (p : SynthPrims) (r0 : ChordRand)
    (hsr : 1 ≤ p.sampleRate) (hsin : ∀ x, |p.sinq x| ≤ 1) :
    (∀ acts, (genRun p r0 acts).voices.length = 3) ∧
    (∀ acts r, |(renderSample p r (genRun p r0 acts)).1| ≤ 1) ∧
    (∀ (rs : ℕ → ChordRand) (st : GenState) (n : ℕ), st.isActive = true →
      st.samplesSinceChange < st.chordDurationSamples →
      ((n ≤ st.chordDurationSamples → changesN p rs n st ≤ 1) ∧
       (st.samplesSinceChange = 0 → changesN p rs st.chordDurationSamples st = 1))) := by
  refine ⟨fun acts => (genRun_inv p r0 hsr acts).1,
          fun acts r =>
            renderSample_output_bound p r _ hsin (genRun_inv p r0 hsr acts).1,
          fun rs st n ha hlt =>
            ⟨fun hn => changesN_window_le_one p rs st n ha hlt hn,
             fun hz => changesN_window_eq_one p rs st ha hz (by omega)⟩⟩

theorem c7_synth_invariants_witness :
    (1 ≤ synthPrimsDemo.sampleRate ∧ ∀ x, |synthPrimsDemo.sinq x| ≤ 1) ∧
    ((∀ acts, (genRun synthPrimsDemo chordRandDemo acts).voices.length = 3) ∧
     (∀ acts r,
        |(renderSample synthPrimsDemo r (genRun synthPrimsDemo chordRandDemo acts)).1| ≤ 1) ∧
     (∀ (rs : ℕ → ChordRand) (st : GenState) (n : ℕ), st.isActive = true →
       st.samplesSinceChange < st.chordDurationSamples →
       ((n ≤ st.chordDurationSamples → changesN synthPrimsDemo rs n st ≤ 1) ∧
        (st.samplesSinceChange = 0 →
          changesN synthPrimsDemo rs st.chordDurationSamples st = 1)))) :=
  ⟨⟨by decide, fun x => by simp [synthPrimsDemo]⟩,
   c7_synth_invariants synthPrimsDemo chordRandDemo (by decide)
     (fun x => by simp [synthPrimsDemo])⟩

/-- C5: pausing a playing File session stores engineNow minus the start
instant clamped into the buffer duration as the new offset, clears the start
instant and moves to paused; pausing a playing Stream session posts a
deactivation message, adds engineNow minus the start instant to the running
offset without clamping (so the offset never decreases when time is
monotone), clears the start instant and moves to paused. -/
theorem c5_pause_semantics (now s d : ℚ) (st : SessionState) :
    (st.activeSource = some SourceKind.file → st.bufferSource = true →
      st.ctx = true → st.bufferStartedAt = some s → st.decodedBuffer = some d →
      pause now st = { st with bufferSource := false,
                               bufferOffset := min d (max 0 (now - s)),
                               bufferStartedAt := none,
                               state := PlaybackState.paused }) ∧
    (∀ n : StreamNode, st.activeSource = some SourceKind.stream →
      st.streamNode = some n → st.ctx = true → st.streamStartedAt = some s →
      pause now st = { st with streamNode := some { n with isActive := false },
                               streamOffset := st.streamOffset + (now - s),
                               streamStartedAt := none,
                               state := PlaybackState.paused } ∧
      (s ≤ now → st.streamOffset ≤ (pause now st).streamOffset)) := by
  constructor
  · intro h1 h2 h3 h4 h5
    simp [pause, h1, h2, h3, h4, h5]
  · intro n h1 h2 h3 h4
    constructor
    · simp [pause, h1, h2, h3, h4]
    · intro hle
      simp [pause, h1, h2, h3, h4]
      linarith

theorem c5_pause_semantics_witness :
    (fileSessionPlaying.activeSource = some SourceKind.file ∧
     fileSessionPlaying.bufferSource = true ∧ fileSessionPlaying.ctx = true ∧
     fileSessionPlaying.bufferStartedAt = some 1 ∧
     fileSessionPlaying.decodedBuffer = some 10 ∧
     streamSessionPlaying.activeSource = some SourceKind.stream ∧
     streamSessionPlaying.streamNode = some ⟨true, true⟩ ∧
     streamSessionPlaying.ctx = true ∧
     streamSessionPlaying.streamStartedAt = some 1) ∧
    pause 3 fileSessionPlaying =
      { fileSessionPlaying with bufferSource := false,
                                bufferOffset := min 10 (max 0 (3 - 1)),
                                bufferStartedAt := none,
                                state := PlaybackState.paused } ∧
    (pause 3 streamSessionPlaying =
       { streamSessionPlaying with streamNode := some ⟨true, false⟩,
                                   streamOffset :=
                                     streamSessionPlaying.streamOffset + (3 - 1),
                                   streamStartedAt := none,
                                   state := PlaybackState.paused } ∧
     ((1 : ℚ) ≤ 3 →
       streamSessionPlaying.streamOffset ≤ (pause 3 streamSessionPlaying).streamOffset)) :=
  ⟨⟨rfl, rfl, rfl, rfl, rfl, rfl, rfl, rfl, rfl⟩,
   (c5_pause_semantics 3 1 10 fileSessionPlaying).1 rfl rfl rfl rfl rfl,
   (c5_pause_semantics 3 1 10 streamSessionPlaying).2 ⟨true, true⟩ rfl rfl rfl rfl⟩

/-- C6: seeking on a File session clamps the target into [0, duration] and
stores it as both the logical offset and the displayed current time, while
seeking on a Stream or Instrument session is a silent no-op leaving the
whole session unchanged. -/
theorem c6_seek_clamps (t now d : ℚ) (st : SessionState) :
    (st.activeSource = some SourceKind.file → st.decodedBuffer = some d →
      ((seekTo t now st).bufferOffset = min d (max 0 t) ∧
       (seekTo t now st).currentTime = min d (max 0 t))) ∧
    (st.activeSource = some SourceKind.stream → seekTo t now st = st) ∧
    (st.activeSource = some SourceKind.instrument → seekTo t now st = st) := by
  refine ⟨?_, ?_, ?_⟩
  · intro h1 h2
    simp only [seekTo, h1, h2]
    split_ifs with hp hc
    · simp [startFilePlayback, h2, clamp_idem]
    · simp
    · simp
  · intro h; simp [seekTo, h]
  · intro h; simp [seekTo, h]

theorem c6_seek_clamps_witness :
    (fileSessionReady.activeSource = some SourceKind.file ∧
     fileSessionReady.decodedBuffer = some 10 ∧
     streamSessionPlaying.activeSource = some SourceKind.stream ∧
     instrumentSession.activeSource = some SourceKind.instrument) ∧
    ((seekTo (-5) 0 fileSessionReady).bufferOffset = min 10 (max 0 (-5)) ∧
     (seekTo (-5) 0 fileSessionReady).currentTime = min 10 (max 0 (-5))) ∧
    ((seekTo 999 0 fileSessionReady).bufferOffset = min 10 (max 0 999) ∧
     (seekTo 999 0 fileSessionReady).currentTime = min 10 (max 0 999)) ∧
    (min (10 : ℚ) (max 0 (-5)) = 0 ∧ min (10 : ℚ) (max 0 999) = 10) ∧
    seekTo 7 0 streamSessionPlaying = streamSessionPlaying ∧
    seekTo 7 0 instrumentSession = instrumentSession :=
  ⟨⟨rfl, rfl, rfl, rfl⟩,
   (c6_seek_clamps (-5) 0 10 fileSessionReady).1 rfl rfl,
   (c6_seek_clamps 999 0 10 fileSessionReady).1 rfl rfl,
   ⟨by norm_num, by norm_num⟩,
   (c6_seek_clamps 7 0 10 streamSessionPlaying).2.1 rfl,
   (c6_seek_clamps 7 0 10 instrumentSession).2.2 rfl⟩

/-- C8: stop is idempotent on every session state, and pausing a session
that a run of actions has left paused changes nothing: no second offset
accumulation and no change to any field. -/
theorem c8_transport_idempotence (now : ℚ) (acts : List SessionAction) :
    (∀ st : SessionState, stop (stop st) = stop st) ∧
    ((sessionRun acts).state = PlaybackState.paused →
      pause now (sessionRun acts) = sessionRun acts) :=
  ⟨stop_stop, fun hp => pause_paused now _ (inv_run acts) hp⟩

theorem c8_transport_idempotence_witness :
    (sessionRun pausedDemoActs).state = PlaybackState.paused ∧
    stop (stop initState) = stop initState ∧
    pause 5 (sessionRun pausedDemoActs) = sessionRun pausedDemoActs :=
  ⟨by decide, (c8_transport_idempotence 5 pausedDemoActs).1 initState,
   (c8_transport_idempotence 5 pausedDemoActs).2 (by decide)⟩

/-- C9: the kalimba key lookup is total: every index outside 0..16 yields no
frequency, and triggerInstrumentNote is a silent no-op that creates no
oscillator both for such indices and whenever the active source is not the
instrument. -/
theorem c9_trigger_out_of_range (i : ℤ) (st : SessionState)
    (h : (i < 0 ∨ 17 ≤ i) ∨ st.activeSource ≠ some SourceKind.instrument) :
    ((i < 0 ∨ 17 ≤ i) → getKalimbaFrequency i = none) ∧
    triggerInstrumentNote i st = (st, false) := by
  have hrange : (i < 0 ∨ 17 ≤ i) → getKalimbaFrequency i = none := by
    intro hr
    rcases hr with hneg | hbig
    · simp [getKalimbaFrequency, hneg]
    · have hlen : kalimbaFreqs.length = 17 := by decide
      have hnn : ¬ i < 0 := by omega
      simp only [getKalimbaFrequency, hnn, if_false]
      apply List.get?_eq_none.2
      rw [hlen]
      omega
  refine ⟨hrange, ?_⟩
  rcases h with hr | hs
  · by_cases hinstr : st.activeSource = some SourceKind.instrument
    · simp [triggerInstrumentNote, hinstr, hrange hr]
    · simp [triggerInstrumentNote, hinstr]
  · simp [triggerInstrumentNote, hs]

theorem c9_trigger_out_of_range_witness :
    (((-3 : ℤ) < 0 ∨ 17 ≤ (-3 : ℤ)) ∨
      instrumentSession.activeSource ≠ some SourceKind.instrument) ∧
    ((((-3 : ℤ) < 0 ∨ 17 ≤ (-3 : ℤ)) → getKalimbaFrequency (-3) = none) ∧
     triggerInstrumentNote (-3) instrumentSession = (instrumentSession, false)) :=
  ⟨Or.inl (Or.inl (by decide)),
   c9_trigger_out_of_range (-3) instrumentSession (Or.inl (Or.inl (by decide)))⟩

/-- C10: before any successful loadSource the active source kind is still
none, and then pause, stop and seek are total no-ops: the entire session
state, observable fields included, is unchanged. -/
theorem c10_initial_noops (st : SessionState) (t now now2 : ℚ)
    (h : st.activeSource = none) :
    pause now st = st ∧ stop st = st ∧ seekTo t now2 st = st := by
  refine ⟨?_, ?_, ?_⟩ <;> simp [pause, stop, seekTo, h]

theorem c10_initial_noops_witness :
    initState.activeSource = none ∧
    (pause 1 initState = initState ∧ stop initState = initState ∧
     seekTo 5 2 initState = initState) :=
  ⟨rfl, c10_initial_noops initState 5 1 2 rfl⟩
